import Mathlib

/-!
Verification of the Druta CLI scaffolding tool (src/index.js).

The tool routes a (platform, action, name) triple to one of six handlers
that create or delete a component directory under the current working
directory.  We shallowly embed the program:

* the filesystem is an association list from absolute path to node
  (directory or file-with-content); `fs.existsSync`, `fs.mkdirSync`,
  `fs.writeFileSync` and `fs.rmSync { recursive, force }` become list
  operations, with `mkdirSync` creating every missing ancestor directory
  as `{ recursive: true }` does;
* `path.join(cwd, name)` returns `cwd` when `name` is empty and
  `cwd ++ "/" ++ name` otherwise; Node.js additionally normalises `.`,
  `..` and repeated separators, which the model does not, so theorems
  about the success paths restrict the name to `normalizedName` inputs
  (each `/`-separated segment non-empty and not `.` or `..`), where the
  two agree;
* JavaScript exceptions become `Except String`; `process.exit(1)` becomes
  an exit code in the result; `console.log` becomes a list of output
  strings (chalk colour codes are presentation and are dropped);
* template literals become explicit string concatenations, with `\x7b`,
  `\x7d`, `\x27`, `\x22` escapes for braces, apostrophes and quotes.
-/

set_option maxRecDepth 16384

namespace Druta

/-- A filesystem node: a directory, or a file with its content. -/
inductive Node where
| dir : Node
| file (content : String) : Node
deriving DecidableEq, Repr

/-- The filesystem: an association list from absolute path to node.
The entry order is an artefact of the encoding; operations below keep it
stable so that state equality can be read off the list. -/
abbrev FS := List (String × Node)

/-- A string-prefix test, used to model recursive deletion. -/
def listHasPfx : List Char → List Char → Bool
| [], _ => true
| _ :: _, [] => false
| a :: as, b :: bs => a == b && listHasPfx as bs

/-- Whether `p` is a prefix of `s` (on the underlying character lists). -/
def strHasPfx (p s : String) : Bool := listHasPfx p.data s.data

/-- Model of `path.join(base, name)`: `path.join(base, "")` is `base`,
otherwise the two are joined with a separator.  Node.js also normalises
`.`, `..`, and repeated separators inside `name`; the model is exact when
`name` needs no normalisation (see `normalizedName`), and the theorems on
the creation paths carry that restriction. -/
def pathJoin (base name : String) : String :=
if name = "" then base else base ++ "/" ++ name

/-- Model of `fs.existsSync(p)`. -/
def existsSync (fs : FS) (p : String) : Bool :=
fs.any (fun e => e.1 == p)

/-- The chain of paths `fs.mkdirSync(p, { recursive: true })` walks: every
prefix of `p` that ends right before a `/` (the ancestor directories),
followed by `p` itself, in ancestor-first order. -/
def mkdirChain : List Char → List Char → List String
| [], acc => [String.mk acc.reverse]
| c :: rest, acc =>
  if c = '/' ∧ acc ≠ [] then String.mk acc.reverse :: mkdirChain rest (c :: acc)
  else mkdirChain rest (c :: acc)

/-- Model of `fs.mkdirSync(p, { recursive: true })`: creates `p` and every
missing ancestor directory, and does not error on the ones that already
exist. -/
def mkdirSync (fs : FS) (p : String) : FS :=
(mkdirChain p.data []).foldl
  (fun acc q => if existsSync acc q then acc else (q, Node.dir) :: acc) fs

/-- Model of `fs.writeFileSync(p, content)`: replaces any previous node at
`p`. -/
def writeFileSync (fs : FS) (p : String) (content : String) : FS :=
(p, Node.file content) :: fs.filter (fun e => !(e.1 == p))

/-- Model of `fs.rmSync(p, { recursive: true, force: true })`: removes `p`
and everything below it. -/
def rmSync (fs : FS) (p : String) : FS :=
fs.filter (fun e => !(e.1 == p || strHasPfx (p ++ "/") e.1))

/-- Model of the ECMAScript `String.prototype.toUpperCase()` mapping of a
single character, exact on the Basic Latin and Latin-1 blocks (code points
below `0x100`): `a`-`z` and `à`-`þ` (except `÷`) shift down by `0x20`,
`µ` maps to the Greek capital Mu, `ß` expands to `SS`, `ÿ` maps to `Ÿ`,
everything else in those blocks is unchanged.  Code points of `0x100` and
above are left unchanged; theorems that depend on capitalization restrict
the first character to the exact range. -/
def jsCharToUpper (c : Char) : String :=
if 0x61 ≤ c.toNat ∧ c.toNat ≤ 0x7A then String.singleton (Char.ofNat (c.toNat - 0x20))
else if c.toNat = 0xB5 then "Μ"
else if c.toNat = 0xDF then "SS"
else if (0xE0 ≤ c.toNat ∧ c.toNat ≤ 0xFE) ∧ c.toNat ≠ 0xF7 then
  String.singleton (Char.ofNat (c.toNat - 0x20))
else if c.toNat = 0xFF then "Ÿ"
else String.singleton c

/-- Model of `componentName.charAt(0).toUpperCase() + componentName.slice(1)`
(for the empty string both sides are empty). -/
def capitalizeFirst (s : String) : String :=
match s.data with
| [] => ""
| c :: cs => jsCharToUpper c ++ String.mk cs

/-- The `page.tsx` template of `createNextComponents`. -/
def pageContent (componentName : String) : String :=
"export default function " ++ capitalizeFirst componentName ++ "Page() \x7b\n  return (\n    <div>\n      <h1>" ++ capitalizeFirst componentName ++ " Page</h1>\n      <p>This is the " ++ componentName ++ " page</p>\n    </div>\n  );\n\x7d\n"

/-- The `layout.tsx` template of `createNextComponents`. -/
def layoutContent (componentName : String) : String :=
"export default function " ++ capitalizeFirst componentName ++ "Layout(\x7b\n  children,\n\x7d: \x7b\n  children: React.ReactNode;\n\x7d) \x7b\n  return (\n    <section>\n      \x7b/* " ++ componentName ++ " layout */\x7d\n      \x7bchildren\x7d\n    </section>\n  );\n\x7d\n"

/-- The `index.tsx` template of `createExpoComponents`. -/
def expoIndexContent (componentName : String) : String :=
"import React from \x27react\x27;\nimport \x7b View, Text, StyleSheet \x7d from \x27react-native\x27;\n\nexport default function " ++ componentName ++ "Screen() \x7b\n  return (\n    <View style=\x7bstyles.container\x7d>\n      <Text style=\x7bstyles.title\x7d>" ++ componentName ++ " Screen</Text>\n    </View>\n  );\n\x7d\n\nconst styles = StyleSheet.create(\x7b\n  container: \x7b\n    flex: 1,\n    alignItems: \x27center\x27,\n    justifyContent: \x27center\x27,\n  \x7d,\n  title: \x7b\n    fontSize: 20,\n    fontWeight: \x27bold\x27,\n    marginBottom: 16,\n  \x7d,\n\x7d);\n"

/-- The `styles.js` template of `createExpoComponents`. -/
def expoStylesContent : String :=
"import \x7b StyleSheet \x7d from \x27react-native\x27;\n\nexport default StyleSheet.create(\x7b\n  container: \x7b\n    flex: 1,\n    padding: 16,\n    backgroundColor: \x27#f0f0f0\x27,\n  \x7d,\n\x7d);\n"

/-- The `index.jsx` template of `createReactNativeComponents`. -/
def rnIndexContent (componentName : String) : String :=
"import React from \x27react\x27;\nimport \x7b View, Text \x7d from \x27react-native\x27;\nimport styles from \x27./styles\x27;\n\nconst " ++ componentName ++ " = () => \x7b\n  return (\n    <View style=\x7bstyles.container\x7d>\n      <Text style=\x7bstyles.text\x7d>" ++ componentName ++ " Component</Text>\n    </View>\n  );\n\x7d;\n\nexport default " ++ componentName ++ ";\n"

/-- The `styles.js` template of `createReactNativeComponents`. -/
def rnStylesContent : String :=
"import \x7b StyleSheet \x7d from \x27react-native\x27;\n\nexport default StyleSheet.create(\x7b\n  container: \x7b\n    padding: 16,\n    backgroundColor: \x27#f5f5f5\x27,\n    borderRadius: 8,\n  \x7d,\n  text: \x7b\n    fontSize: 16,\n    color: \x27#333\x27,\n  \x7d,\n\x7d);\n"

/-- Handler `createNextComponents`: fails when the target directory exists,
otherwise creates it and writes `page.tsx` and `layout.tsx`. -/
def createNextComponents (componentName : String) (cwd : String) (fs : FS) : Except String FS :=
let basePath := pathJoin cwd componentName
if existsSync fs basePath then
  Except.error ("Component/page \x22" ++ componentName ++ "\x22 already exists")
else
  let fs1 := mkdirSync fs basePath
  let fs2 := writeFileSync fs1 (pathJoin basePath "page.tsx") (pageContent componentName)
  let fs3 := writeFileSync fs2 (pathJoin basePath "layout.tsx") (layoutContent componentName)
  Except.ok fs3

/-- Handler `removeNextComponents`: fails when the target directory does not
exist, otherwise deletes it recursively. -/
def removeNextComponents (componentName : String) (cwd : String) (fs : FS) : Except String FS :=
let basePath := pathJoin cwd componentName
if !(existsSync fs basePath) then
  Except.error ("Component/page \x22" ++ componentName ++ "\x22 doesn\x27t exist")
else
  Except.ok (rmSync fs basePath)

/-- Handler `createExpoComponents`: fails when the target directory exists,
otherwise creates it and writes `index.tsx` and `styles.js`. -/
def createExpoComponents (componentName : String) (cwd : String) (fs : FS) : Except String FS :=
let componentDir := pathJoin cwd componentName
if existsSync fs componentDir then
  Except.error ("Component \x22" ++ componentName ++ "\x22 already exists")
else
  let fs1 := mkdirSync fs componentDir
  let fs2 := writeFileSync fs1 (pathJoin componentDir "index.tsx") (expoIndexContent componentName)
  let fs3 := writeFileSync fs2 (pathJoin componentDir "styles.js") expoStylesContent
  Except.ok fs3

/-- Handler `removeExpoComponents`. -/
def removeExpoComponents (componentName : String) (cwd : String) (fs : FS) : Except String FS :=
let componentDir := pathJoin cwd componentName
if !(existsSync fs componentDir) then
  Except.error ("Component \x22" ++ componentName ++ "\x22 doesn\x27t exist")
else
  Except.ok (rmSync fs componentDir)

/-- Handler `createReactNativeComponents`: fails when the target directory
exists, otherwise creates it and writes `index.jsx` and `styles.js`. -/
def createReactNativeComponents (componentName : String) (cwd : String) (fs : FS) : Except String FS :=
let componentDir := pathJoin cwd componentName
if existsSync fs componentDir then
  Except.error ("Component \x22" ++ componentName ++ "\x22 already exists")
else
  let fs1 := mkdirSync fs componentDir
  let fs2 := writeFileSync fs1 (pathJoin componentDir "index.jsx") (rnIndexContent componentName)
  let fs3 := writeFileSync fs2 (pathJoin componentDir "styles.js") rnStylesContent
  Except.ok fs3

/-- Handler `removeReactNativeComponents`. -/
def removeReactNativeComponents (componentName : String) (cwd : String) (fs : FS) : Except String FS :=
let componentDir := pathJoin cwd componentName
if !(existsSync fs componentDir) then
  Except.error ("Component \x22" ++ componentName ++ "\x22 doesn\x27t exist")
else
  Except.ok (rmSync fs componentDir)

/-- Outcome of a command: exit code, printed messages, final filesystem. -/
abbrev Outcome := Nat × List String × FS

/-- Function `addComponent(platform, componentName)`: dispatches on the
platform, prints a success message, or catches the handler error, prints it
and exits with code 1. -/
def addComponent (platform componentName : String) (cwd : String) (fs : FS) : Outcome :=
match (if platform = "next" then createNextComponents componentName cwd fs
       else if platform = "expo" then createExpoComponents componentName cwd fs
       else if platform = "react-native" then createReactNativeComponents componentName cwd fs
       else Except.ok fs) with
| Except.ok fs2 => (0, ["✓ Successfully created " ++ componentName ++ " for " ++ platform ++ "!"], fs2)
| Except.error msg => (1, ["✗ Error creating component: " ++ msg], fs)

/-- Function `removeComponent(platform, componentName)`: dispatches on the
platform, prints a success message, or catches the handler error, prints it
and exits with code 1. -/
def removeComponent (platform componentName : String) (cwd : String) (fs : FS) : Outcome :=
match (if platform = "next" then removeNextComponents componentName cwd fs
       else if platform = "expo" then removeExpoComponents componentName cwd fs
       else if platform = "react-native" then removeReactNativeComponents componentName cwd fs
       else Except.ok fs) with
| Except.ok fs2 => (0, ["✓ Successfully removed " ++ componentName ++ " from " ++ platform ++ "!"], fs2)
| Except.error msg => (1, ["✗ Error removing component: " ++ msg], fs)

/-- The `displayHelp()` text (colour styling dropped). -/
def helpText : String :=
"\nUSAGE:\n  drt <platform> <action> <name>\n\nPLATFORMS:\n  expo         - For Expo projects\n  next         - For Next.js projects\n  react-native - For React Native projects\n\nACTIONS:\n  add    - Add a new component/page\n  remove - Remove an existing component/page\n\nEXAMPLES:\n  drt expo add login    - Create a login component for Expo\n  drt next remove about - Remove about page from Next.js project\n  "

/-- Result of `parseArguments`: either the interactive prompt is entered, or
the run finishes with an exit code, printed messages and a final
filesystem. -/
inductive CLIResult where
| interactive : CLIResult
| done (exitCode : Nat) (output : List String) (fs : FS) : CLIResult
deriving DecidableEq, Repr

/-- Function `parseArguments()` on `args = process.argv.slice(2)`: no
arguments enters interactive mode; fewer than three is an argument-count
error; otherwise the first three tokens are taken as (platform, action,
name), the platform and action are validated, and the matching
add/remove routine runs. -/
def runCLI (args : List String) (cwd : String) (fs : FS) : CLIResult :=
match args with
| [] => CLIResult.interactive
| [_] => CLIResult.done 1 ["Not enough arguments provided", helpText] fs
| [_, _] => CLIResult.done 1 ["Not enough arguments provided", helpText] fs
| platform :: action :: componentName :: _ =>
  if !(["expo", "next", "react-native"].contains platform) then
    CLIResult.done 1 ["Invalid platform: " ++ platform, helpText] fs
  else if !(["add", "remove"].contains action) then
    CLIResult.done 1 ["Invalid action: " ++ action, helpText] fs
  else if action = "add" then
    let r := addComponent platform componentName cwd fs
    CLIResult.done r.1 r.2.1 r.2.2
  else
    let r := removeComponent platform componentName cwd fs
    CLIResult.done r.1 r.2.1 r.2.2

/-- The ECMAScript whitespace set trimmed by `String.prototype.trim`:
WhiteSpace (TAB, VT, FF, SP, NBSP, ZWNBSP and the Unicode
space-separator category) plus the LineTerminator characters (LF, CR,
LS, PS). -/
def jsWS (c : Char) : Bool :=
c.toNat == 0x9 || c.toNat == 0xA || c.toNat == 0xB || c.toNat == 0xC ||
c.toNat == 0xD || c.toNat == 0x20 || c.toNat == 0xA0 || c.toNat == 0x1680 ||
(decide (0x2000 ≤ c.toNat) && decide (c.toNat ≤ 0x200A)) ||
c.toNat == 0x2028 || c.toNat == 0x2029 || c.toNat == 0x202F ||
c.toNat == 0x205F || c.toNat == 0x3000 || c.toNat == 0xFEFF

/-- Model of `input.trim()` on the underlying character list: strip leading
and trailing whitespace. -/
def jsTrimChars (l : List Char) : List Char :=
((l.dropWhile jsWS).reverse.dropWhile jsWS).reverse

/-- The name-field validator of the interactive prompt:
`input.trim() !== "" ? true : "Name cannot be empty"`. -/
def validateComponentName (input : String) : Except String Unit :=
if !(jsTrimChars input.data).isEmpty then Except.ok ()
else Except.error "Name cannot be empty"

/-- Tail of `interactiveCLI()` once the three answers are collected: the
same `addComponent` / `removeComponent` calls the dispatcher makes. -/
def interactiveCLIRun (platform action componentName : String) (cwd : String) (fs : FS) : Outcome :=
if action = "add" then addComponent platform componentName cwd fs
else if action = "remove" then removeComponent platform componentName cwd fs
else (0, [], fs)

/-- A filesystem state in which the target directory is absent and nothing
lies below it.  On a real filesystem the absence of a directory implies the
absence of everything below it; the association-list encoding needs the
second half spelled out. -/
def cleanFor (fs : FS) (target : String) : Prop :=
∀ e ∈ fs, e.1 ≠ target ∧ strHasPfx (target ++ "/") e.1 = false

instance cleanForDecidable (fs : FS) (target : String) : Decidable (cleanFor fs target) := by
unfold cleanFor
infer_instance

/-- The `/`-separated segments of a path string. -/
def splitSegs : List Char → List Char → List String
| [], acc => [String.mk acc.reverse]
| c :: rest, acc =>
  if c = '/' then String.mk acc.reverse :: splitSegs rest []
  else splitSegs rest (c :: acc)

/-- A name on which `path.join` performs no normalisation: every
`/`-separated segment is non-empty and neither `.` nor `..`.  On such
names the modelled `pathJoin` agrees with Node.js. -/
def normalizedName (name : String) : Prop :=
∀ s ∈ splitSegs name.data [], s ≠ "" ∧ s ≠ "." ∧ s ≠ ".."

instance normalizedNameDecidable (name : String) : Decidable (normalizedName name) := by
unfold normalizedName
infer_instance

/-- Every ancestor directory of `p` (every element of its `mkdirChain`
other than `p` itself) is already present.  This always holds of a real
working directory, whose ancestors exist. -/
def parentsExist (fs : FS) (p : String) : Prop :=
∀ q ∈ mkdirChain p.data [], q = p ∨ existsSync fs q = true

instance parentsExistDecidable (fs : FS) (p : String) : Decidable (parentsExist fs p) := by
unfold parentsExist
infer_instance

lemma listHasPfx_self_append : ∀ (l m : List Char), listHasPfx l (l ++ m) = true
| [], _ => rfl
| a :: as, m => by simp [listHasPfx, listHasPfx_self_append as m]

lemma strHasPfx_self_append (a b : String) : strHasPfx a (a ++ b) = true := by
simp [strHasPfx, String.data_append, listHasPfx_self_append]

lemma append_left_cancel (a b c : String) (h : a ++ b = a ++ c) : b = c := by
have hd := congrArg String.data h
simp only [String.data_append] at hd
exact String.ext (List.append_cancel_left hd)

lemma pathJoin_ne_self (base f : String) (hf : f ≠ "") : pathJoin base f ≠ base := by
intro he
have hl := congrArg String.length he
simp [pathJoin, hf, String.length_append] at hl
have h1 : ("/" : String).length = 1 := rfl
omega

lemma strHasPfx_pathJoin (base f : String) (hf : f ≠ "") :
    strHasPfx (base ++ "/") (pathJoin base f) = true := by
unfold pathJoin
rw [if_neg hf]
exact strHasPfx_self_append (base ++ "/") f

lemma pathJoin_inj (base f1 f2 : String) (hf1 : f1 ≠ "") (hf2 : f2 ≠ "")
    (h : pathJoin base f1 = pathJoin base f2) : f1 = f2 := by
unfold pathJoin at h
rw [if_neg hf1, if_neg hf2] at h
exact append_left_cancel (base ++ "/") f1 f2 h

lemma existsSync_eq_false_of_clean {fs : FS} {target : String} (h : cleanFor fs target) :
    existsSync fs target = false := by
simp only [existsSync, List.any_eq_false]
intro e he
simp only [beq_iff_eq]
exact (h e he).1

lemma entry_ne_pathJoin {fs : FS} {target : String} (h : cleanFor fs target)
    (f : String) (hf : f ≠ "") : ∀ e ∈ fs, e.1 ≠ pathJoin target f := by
intro e he hEq
have h2 := (h e he).2
rw [hEq, strHasPfx_pathJoin target f hf] at h2
exact Bool.noConfusion h2

lemma mkdirChain_mem_self : ∀ (l acc : List Char),
    String.mk (acc.reverse ++ l) ∈ mkdirChain l acc := by
intro l
induction l with
| nil =>
  intro acc
  simp [mkdirChain]
| cons c rest ih =>
  intro acc
  have h := ih (c :: acc)
  rw [List.reverse_cons, List.append_assoc] at h
  simp only [List.singleton_append] at h
  unfold mkdirChain
  by_cases hc : c = '/' ∧ acc ≠ []
  · rw [if_pos hc]
    exact List.mem_cons_of_mem _ h
  · rw [if_neg hc]
    exact h

lemma foldl_mkdirStep_skip (g : FS) (L : List String)
    (h : ∀ q ∈ L, existsSync g q = true) :
    L.foldl (fun acc q => if existsSync acc q then acc else (q, Node.dir) :: acc) g = g := by
induction L with
| nil => rfl
| cons q L ih =>
  simp only [List.foldl_cons, h q (List.mem_cons_self q L), if_true]
  exact ih fun r hr => h r (List.mem_cons_of_mem q hr)

lemma foldl_mkdirStep_single (p : String) (L : List String) (fs : FS)
    (hmem : p ∈ L) (hex : existsSync fs p = false)
    (hanc : ∀ q ∈ L, q = p ∨ existsSync fs q = true) :
    L.foldl (fun acc q => if existsSync acc q then acc else (q, Node.dir) :: acc) fs
      = (p, Node.dir) :: fs := by
induction L with
| nil => cases hmem
| cons q L ih =>
  by_cases hq : q = p
  · subst hq
    simp only [List.foldl_cons, hex, Bool.false_eq_true, if_false]
    apply foldl_mkdirStep_skip
    intro r hr
    rcases hanc r (List.mem_cons_of_mem _ hr) with rfl | h2
    · simp [existsSync]
    · simp only [existsSync, List.any_cons] at h2 ⊢
      simp [h2]
  · have hq2 : existsSync fs q = true := by
      rcases hanc q (List.mem_cons_self q L) with h1 | h1
      · exact absurd h1 hq
      · exact h1
    simp only [List.foldl_cons, hq2, if_true]
    have hmem2 : p ∈ L := by
      rcases List.mem_cons.mp hmem with h1 | h1
      · exact absurd h1.symm hq
      · exact h1
    exact ih hmem2 fun r hr => hanc r (List.mem_cons_of_mem _ hr)

lemma mkdirSync_single (fs : FS) (p : String) (hex : existsSync fs p = false)
    (hanc : parentsExist fs p) : mkdirSync fs p = (p, Node.dir) :: fs := by
have hmem : p ∈ mkdirChain p.data [] := by
  have h := mkdirChain_mem_self p.data []
  rw [List.reverse_nil, List.nil_append] at h
  exact h
exact foldl_mkdirStep_single p (mkdirChain p.data []) fs hmem hex hanc

lemma create_two_files (fs : FS) (target f1 f2 c1 c2 : String)
    (hclean : cleanFor fs target) (hanc : parentsExist fs target)
    (hf1 : f1 ≠ "") (hf2 : f2 ≠ "") (h12 : f1 ≠ f2) :
    writeFileSync (writeFileSync (mkdirSync fs target) (pathJoin target f1) c1)
        (pathJoin target f2) c2
      = (pathJoin target f2, Node.file c2) :: (pathJoin target f1, Node.file c1) ::
        (target, Node.dir) :: fs := by
have hex := existsSync_eq_false_of_clean hclean
have e1 : ((target, Node.dir) :: fs).filter (fun e => !(e.1 == pathJoin target f1))
    = (target, Node.dir) :: fs := by
  rw [List.filter_eq_self]
  intro a ha
  rcases List.mem_cons.mp ha with rfl | ha
  · simp
    exact (pathJoin_ne_self target f1 hf1).symm
  · simp
    exact entry_ne_pathJoin hclean f1 hf1 a ha
have e2 : ((pathJoin target f1, Node.file c1) :: (target, Node.dir) :: fs).filter
    (fun e => !(e.1 == pathJoin target f2))
    = (pathJoin target f1, Node.file c1) :: (target, Node.dir) :: fs := by
  rw [List.filter_eq_self]
  intro a ha
  rcases List.mem_cons.mp ha with rfl | ha
  · simp
    exact fun h => h12 (pathJoin_inj target f1 f2 hf1 hf2 h)
  · rcases List.mem_cons.mp ha with rfl | ha
    · simp
      exact (pathJoin_ne_self target f2 hf2).symm
    · simp
      exact entry_ne_pathJoin hclean f2 hf2 a ha
rw [mkdirSync_single fs target hex hanc]
simp only [writeFileSync, e1, e2]

lemma existsSync_create_two (fs : FS) (target f1 f2 c1 c2 : String) :
    existsSync ((pathJoin target f2, Node.file c2) :: (pathJoin target f1, Node.file c1) ::
      (target, Node.dir) :: fs) target = true := by
simp [existsSync]

lemma rmSync_create_two (fs : FS) (target f1 f2 c1 c2 : String)
    (hclean : cleanFor fs target) (hf1 : f1 ≠ "") (hf2 : f2 ≠ "") :
    rmSync ((pathJoin target f2, Node.file c2) :: (pathJoin target f1, Node.file c1) ::
      (target, Node.dir) :: fs) target = fs := by
have hfs : ∀ e ∈ fs, (!(e.1 == target || strHasPfx (target ++ "/") e.1)) = true := by
  intro e he
  simp [(hclean e he).1, (hclean e he).2]
simp [rmSync, strHasPfx_pathJoin target f1 hf1, strHasPfx_pathJoin target f2 hf2]
intro a b hab
exact ⟨(hclean (a, b) hab).1, (hclean (a, b) hab).2⟩

lemma createNextComponents_ok (componentName cwd : String) (fs : FS)
    (hclean : cleanFor fs (pathJoin cwd componentName))
    (hanc : parentsExist fs (pathJoin cwd componentName)) :
    createNextComponents componentName cwd fs = Except.ok
      ((pathJoin (pathJoin cwd componentName) "layout.tsx", Node.file (layoutContent componentName)) ::
       (pathJoin (pathJoin cwd componentName) "page.tsx", Node.file (pageContent componentName)) ::
       (pathJoin cwd componentName, Node.dir) :: fs) := by
have hex := existsSync_eq_false_of_clean hclean
simp only [createNextComponents, hex, Bool.false_eq_true, if_false,
  create_two_files fs (pathJoin cwd componentName) "page.tsx" "layout.tsx" _ _ hclean hanc
    (by decide) (by decide) (by decide)]

lemma createExpoComponents_ok (componentName cwd : String) (fs : FS)
    (hclean : cleanFor fs (pathJoin cwd componentName))
    (hanc : parentsExist fs (pathJoin cwd componentName)) :
    createExpoComponents componentName cwd fs = Except.ok
      ((pathJoin (pathJoin cwd componentName) "styles.js", Node.file expoStylesContent) ::
       (pathJoin (pathJoin cwd componentName) "index.tsx", Node.file (expoIndexContent componentName)) ::
       (pathJoin cwd componentName, Node.dir) :: fs) := by
have hex := existsSync_eq_false_of_clean hclean
simp only [createExpoComponents, hex, Bool.false_eq_true, if_false,
  create_two_files fs (pathJoin cwd componentName) "index.tsx" "styles.js" _ _ hclean hanc
    (by decide) (by decide) (by decide)]

lemma createReactNativeComponents_ok (componentName cwd : String) (fs : FS)
    (hclean : cleanFor fs (pathJoin cwd componentName))
    (hanc : parentsExist fs (pathJoin cwd componentName)) :
    createReactNativeComponents componentName cwd fs = Except.ok
      ((pathJoin (pathJoin cwd componentName) "styles.js", Node.file rnStylesContent) ::
       (pathJoin (pathJoin cwd componentName) "index.jsx", Node.file (rnIndexContent componentName)) ::
       (pathJoin cwd componentName, Node.dir) :: fs) := by
have hex := existsSync_eq_false_of_clean hclean
simp only [createReactNativeComponents, hex, Bool.false_eq_true, if_false,
  create_two_files fs (pathJoin cwd componentName) "index.jsx" "styles.js" _ _ hclean hanc
    (by decide) (by decide) (by decide)]

/-- C1: for every platform in the valid set and every name whose target
directory already exists, `add` fails with an already-exists error naming
the component, exits with code 1, and leaves the filesystem unchanged. -/
theorem add_existing_target_fails (platform componentName cwd : String) (fs : FS)
    (hp : platform = "next" ∨ platform = "expo" ∨ platform = "react-native")
    (hex : existsSync fs (pathJoin cwd componentName) = true) :
    addComponent platform componentName cwd fs =
      (1, ["✗ Error creating component: " ++
            ((if platform = "next" then "Component/page \x22" else "Component \x22") ++
              componentName ++ "\x22 already exists")], fs) := by
rcases hp with h | h | h <;> subst h
· simp [addComponent, createNextComponents, hex]
· simp [addComponent, createExpoComponents, hex]
· simp [addComponent, createReactNativeComponents, hex]

/-- Witness for C1: adding `app` when `/w/app` exists fails and changes
nothing. -/
theorem add_existing_target_fails_witness :
    existsSync [("/w/app", Node.dir)] (pathJoin "/w" "app") = true ∧
    addComponent "expo" "app" "/w" [("/w/app", Node.dir)] =
      (1, ["✗ Error creating component: Component \x22app\x22 already exists"],
        [("/w/app", Node.dir)]) := by
refine ⟨rfl, ?_⟩
rw [add_existing_target_fails "expo" "app" "/w" [("/w/app", Node.dir)]
  (Or.inr (Or.inl rfl)) rfl]
rfl

/-- C2: for every platform in the valid set and every name whose target
directory does not exist, `remove` fails with a doesn\x27t-exist error naming
the component, exits with code 1, and leaves the filesystem unchanged. -/
theorem remove_absent_target_fails (platform componentName cwd : String) (fs : FS)
    (hp : platform = "next" ∨ platform = "expo" ∨ platform = "react-native")
    (hex : existsSync fs (pathJoin cwd componentName) = false) :
    removeComponent platform componentName cwd fs =
      (1, ["✗ Error removing component: " ++
            ((if platform = "next" then "Component/page \x22" else "Component \x22") ++
              componentName ++ "\x22 doesn\x27t exist")], fs) := by
rcases hp with h | h | h <;> subst h
· simp [removeComponent, removeNextComponents, hex]
· simp [removeComponent, removeExpoComponents, hex]
· simp [removeComponent, removeReactNativeComponents, hex]

/-- Witness for C2: removing `app` when `/w/app` is absent fails and changes
nothing. -/
theorem remove_absent_target_fails_witness :
    existsSync [("/w/other", Node.dir)] (pathJoin "/w" "app") = false ∧
    removeComponent "next" "app" "/w" [("/w/other", Node.dir)] =
      (1, ["✗ Error removing component: Component/page \x22app\x22 doesn\x27t exist"],
        [("/w/other", Node.dir)]) := by
refine ⟨rfl, ?_⟩
rw [remove_absent_target_fails "next" "app" "/w" [("/w/other", Node.dir)] (Or.inl rfl) rfl]
rfl

/-- C6: with three or more tokens, an unrecognized platform token — or a
recognized platform with an unrecognized action token — makes the
dispatcher print an error naming the offending value plus the usage help
and exit with code 1, leaving the filesystem untouched. -/
theorem invalid_platform_or_action (platform action componentName cwd : String)
    (rest : List String) (fs : FS) :
    (platform ∉ (["expo", "next", "react-native"] : List String) →
      runCLI (platform :: action :: componentName :: rest) cwd fs =
        CLIResult.done 1 ["Invalid platform: " ++ platform, helpText] fs) ∧
    (platform ∈ (["expo", "next", "react-native"] : List String) →
     action ∉ (["add", "remove"] : List String) →
      runCLI (platform :: action :: componentName :: rest) cwd fs =
        CLIResult.done 1 ["Invalid action: " ++ action, helpText] fs) := by
constructor
· intro hplat
  have hc : (["expo", "next", "react-native"] : List String).contains platform = false := by
    simpa using hplat
  simp only [runCLI, hc]
  rfl
· intro hplat hact
  have hcp : (["expo", "next", "react-native"] : List String).contains platform = true := by
    simpa using hplat
  have hca : (["add", "remove"] : List String).contains action = false := by
    simpa using hact
  simp only [runCLI, hcp, hca]
  rfl

/-- Witness for C6: platform `android` and action `destroy` are both
rejected before any filesystem access. -/
theorem invalid_platform_or_action_witness :
    ("android" ∉ (["expo", "next", "react-native"] : List String)) ∧
    runCLI ["android", "add", "x"] "/w" [("/w/x", Node.dir)] =
      CLIResult.done 1 ["Invalid platform: android", helpText] [("/w/x", Node.dir)] ∧
    runCLI ["next", "destroy", "x"] "/w" [("/w/x", Node.dir)] =
      CLIResult.done 1 ["Invalid action: destroy", helpText] [("/w/x", Node.dir)] := by
refine ⟨by decide, ?_, ?_⟩
· rw [(invalid_platform_or_action "android" "add" "x" "/w" [] [("/w/x", Node.dir)]).1
    (by decide)]
  rfl
· rw [(invalid_platform_or_action "next" "destroy" "x" "/w" [] [("/w/x", Node.dir)]).2
    (by decide) (by decide)]
  rfl

/-- C7: the dispatcher routes purely on token count and the first three
tokens — zero tokens enter interactive mode, one or two tokens exit with an
argument-count error and no filesystem effect, and any tokens beyond the
third are discarded without influencing the outcome. -/
theorem dispatcher_routing (cwd : String) (fs : FS) :
    runCLI [] cwd fs = CLIResult.interactive ∧
    (∀ t1, runCLI [t1] cwd fs =
      CLIResult.done 1 ["Not enough arguments provided", helpText] fs) ∧
    (∀ t1 t2, runCLI [t1, t2] cwd fs =
      CLIResult.done 1 ["Not enough arguments provided", helpText] fs) ∧
    (∀ platform action componentName rest,
      runCLI (platform :: action :: componentName :: rest) cwd fs =
        runCLI [platform, action, componentName] cwd fs) :=
⟨rfl, fun _ => rfl, fun _ _ => rfl, fun _ _ _ _ => rfl⟩

/-- C9: the three per-platform remove handlers compute the same thing — the
expo and react-native handlers are definitionally equal, and the next
handler agrees with them on target, existence check and deletion, differing
only in the error wording. -/
theorem remove_handlers_extensionally_equal (componentName cwd : String) (fs : FS) :
    removeExpoComponents componentName cwd fs = removeReactNativeComponents componentName cwd fs ∧
    (existsSync fs (pathJoin cwd componentName) = true →
      removeNextComponents componentName cwd fs =
        Except.ok (rmSync fs (pathJoin cwd componentName)) ∧
      removeExpoComponents componentName cwd fs =
        Except.ok (rmSync fs (pathJoin cwd componentName))) ∧
    (existsSync fs (pathJoin cwd componentName) = false →
      removeNextComponents componentName cwd fs =
        Except.error ("Component/page \x22" ++ componentName ++ "\x22 doesn\x27t exist") ∧
      removeExpoComponents componentName cwd fs =
        Except.error ("Component \x22" ++ componentName ++ "\x22 doesn\x27t exist")) := by
refine ⟨rfl, fun h => ⟨?_, ?_⟩, fun h => ⟨?_, ?_⟩⟩
· simp [removeNextComponents, h]
· simp [removeExpoComponents, h]
· simp [removeNextComponents, h]
· simp [removeExpoComponents, h]

/-- Witness for C9: on a present directory all three handlers delete the
same thing; on an absent one the messages differ only in wording. -/
theorem remove_handlers_extensionally_equal_witness :
    removeExpoComponents "x" "/w" [("/w/x", Node.dir)] =
      removeReactNativeComponents "x" "/w" [("/w/x", Node.dir)] ∧
    removeNextComponents "x" "/w" [("/w/x", Node.dir)] = Except.ok [] ∧
    removeNextComponents "y" "/w" [("/w/x", Node.dir)] =
      Except.error "Component/page \x22y\x22 doesn\x27t exist" := by
refine ⟨(remove_handlers_extensionally_equal "x" "/w" [("/w/x", Node.dir)]).1, ?_, ?_⟩
· rw [((remove_handlers_extensionally_equal "x" "/w" [("/w/x", Node.dir)]).2.1 rfl).1]
  rfl
· rw [((remove_handlers_extensionally_equal "y" "/w" [("/w/x", Node.dir)]).2.2 rfl).1]
  rfl

/-- C3 (amended): for every valid platform and every normalized name (each
`/`-separated segment non-empty and not `.` or `..`) whose target directory
is absent and all of whose ancestor directories already exist, `add` then
`remove` both succeed and return the filesystem to its original state.
Without the ancestors-exist condition the round trip fails, because `add`
creates missing intermediate directories that `remove` leaves behind; see
the counterexample. -/
theorem add_remove_roundtrip (platform componentName cwd : String) (fs : FS)
    (hp : platform = "next" ∨ platform = "expo" ∨ platform = "react-native")
    (_hnorm : normalizedName componentName)
    (hclean : cleanFor fs (pathJoin cwd componentName))
    (hanc : parentsExist fs (pathJoin cwd componentName)) :
    (addComponent platform componentName cwd fs).1 = 0 ∧
    removeComponent platform componentName cwd (addComponent platform componentName cwd fs).2.2 =
      (0, ["✓ Successfully removed " ++ componentName ++ " from " ++ platform ++ "!"], fs) := by
rcases hp with h | h | h <;> subst h
· have hc := createNextComponents_ok componentName cwd fs hclean hanc
  have hex3 := existsSync_create_two fs (pathJoin cwd componentName) "page.tsx" "layout.tsx"
    (pageContent componentName) (layoutContent componentName)
  have hrm := rmSync_create_two fs (pathJoin cwd componentName) "page.tsx" "layout.tsx"
    (pageContent componentName) (layoutContent componentName) hclean (by decide) (by decide)
  constructor
  · simp [addComponent, hc]
  · simp [addComponent, hc, removeComponent, removeNextComponents, hex3, hrm]
· have hc := createExpoComponents_ok componentName cwd fs hclean hanc
  have hex3 := existsSync_create_two fs (pathJoin cwd componentName) "index.tsx" "styles.js"
    (expoIndexContent componentName) expoStylesContent
  have hrm := rmSync_create_two fs (pathJoin cwd componentName) "index.tsx" "styles.js"
    (expoIndexContent componentName) expoStylesContent hclean (by decide) (by decide)
  constructor
  · simp [addComponent, hc]
  · simp [addComponent, hc, removeComponent, removeExpoComponents, hex3, hrm]
· have hc := createReactNativeComponents_ok componentName cwd fs hclean hanc
  have hex3 := existsSync_create_two fs (pathJoin cwd componentName) "index.jsx" "styles.js"
    (rnIndexContent componentName) rnStylesContent
  have hrm := rmSync_create_two fs (pathJoin cwd componentName) "index.jsx" "styles.js"
    (rnIndexContent componentName) rnStylesContent hclean (by decide) (by decide)
  constructor
  · simp [addComponent, hc]
  · simp [addComponent, hc, removeComponent, removeReactNativeComponents, hex3, hrm]

/-- Counterexample to C3 as stated: for name `a/b` under working directory
`/w` holding nothing, the target directory `/w/a/b` is initially absent,
`add` succeeds (also creating the intermediate directory `/w/a`) and
`remove` succeeds, but `/w/a` is left behind: the filesystem does not
return to its original state. -/
theorem add_remove_roundtrip_counterexample :
    existsSync [("/w", Node.dir)] (pathJoin "/w" "a/b") = false ∧
    (addComponent "next" "a/b" "/w" [("/w", Node.dir)]).1 = 0 ∧
    (removeComponent "next" "a/b" "/w"
        (addComponent "next" "a/b" "/w" [("/w", Node.dir)]).2.2).1 = 0 ∧
    (removeComponent "next" "a/b" "/w"
        (addComponent "next" "a/b" "/w" [("/w", Node.dir)]).2.2).2.2 =
      [("/w/a", Node.dir), ("/w", Node.dir)] ∧
    [("/w/a", Node.dir), ("/w", Node.dir)] ≠ [("/w", Node.dir)] :=
⟨rfl, rfl, rfl, rfl, by decide⟩

/-- Witness for the amended C3: adding then removing `blog` under an
existing `/w` restores the original state, other entries untouched. -/
theorem add_remove_roundtrip_witness :
    (addComponent "next" "blog" "/w" [("/w", Node.dir), ("/w/other", Node.dir)]).1 = 0 ∧
    removeComponent "next" "blog" "/w"
        (addComponent "next" "blog" "/w" [("/w", Node.dir), ("/w/other", Node.dir)]).2.2 =
      (0, ["✓ Successfully removed blog from next!"],
        [("/w", Node.dir), ("/w/other", Node.dir)]) := by
have T := add_remove_roundtrip "next" "blog" "/w" [("/w", Node.dir), ("/w/other", Node.dir)]
  (Or.inl rfl) (by decide) (by decide) (by decide)
refine ⟨T.1, ?_⟩
rw [T.2]
rfl

/-- C4: for a normalized name whose first character lies in the range
where the embedded `toUpperCase` model is exact, with the target directory
absent and its ancestors present, `add("next", name)` creates the target
directory with exactly `page.tsx` and `layout.tsx`, whose default-exported
component identifiers are the capitalized name followed by `Page` and
`Layout`. -/
theorem next_add_creates_page_and_layout (componentName cwd : String) (fs : FS)
    (_hnorm : normalizedName componentName)
    (_hfirst : ∀ c ∈ componentName.data.take 1, c.toNat < 0x100)
    (hclean : cleanFor fs (pathJoin cwd componentName))
    (hanc : parentsExist fs (pathJoin cwd componentName)) :
    createNextComponents componentName cwd fs = Except.ok
      ((pathJoin (pathJoin cwd componentName) "layout.tsx", Node.file (layoutContent componentName)) ::
       (pathJoin (pathJoin cwd componentName) "page.tsx", Node.file (pageContent componentName)) ::
       (pathJoin cwd componentName, Node.dir) :: fs) ∧
    pageContent componentName =
      "export default function " ++ (capitalizeFirst componentName ++ "Page") ++
        ("() \x7b\n  return (\n    <div>\n      <h1>" ++ (capitalizeFirst componentName ++ " Page") ++
          ("</h1>\n      <p>This is the " ++ componentName ++ " page</p>\n    </div>\n  );\n\x7d\n")) ∧
    layoutContent componentName =
      "export default function " ++ (capitalizeFirst componentName ++ "Layout") ++
        ("(\x7b\n  children,\n\x7d: \x7b\n  children: React.ReactNode;\n\x7d) \x7b\n  return (\n    <section>\n      \x7b/* " ++
          componentName ++ " layout */\x7d\n      \x7bchildren\x7d\n    </section>\n  );\n\x7d\n") := by
refine ⟨createNextComponents_ok componentName cwd fs hclean hanc, ?_, ?_⟩
· unfold pageContent
  apply String.ext
  simp only [String.data_append]
  simp [List.append_assoc]
· unfold layoutContent
  apply String.ext
  simp only [String.data_append]
  simp [List.append_assoc]

/-- Witness for C4: `add("next", "dashboard")` yields `DashboardPage`, and
the non-ASCII name `école` yields `ÉcolePage` as the program does. -/
theorem next_add_creates_page_and_layout_witness :
    createNextComponents "dashboard" "/w" [("/w", Node.dir)] = Except.ok
      [("/w/dashboard/layout.tsx", Node.file (layoutContent "dashboard")),
       ("/w/dashboard/page.tsx", Node.file (pageContent "dashboard")),
       ("/w/dashboard", Node.dir), ("/w", Node.dir)] ∧
    pageContent "dashboard" =
      "export default function DashboardPage() \x7b\n  return (\n    <div>\n      <h1>Dashboard Page</h1>\n      <p>This is the dashboard page</p>\n    </div>\n  );\n\x7d\n" ∧
    pageContent "école" =
      "export default function ÉcolePage() \x7b\n  return (\n    <div>\n      <h1>École Page</h1>\n      <p>This is the école page</p>\n    </div>\n  );\n\x7d\n" := by
have T := next_add_creates_page_and_layout "dashboard" "/w" [("/w", Node.dir)]
  (by decide) (by decide) (by decide) (by decide)
have T2 := next_add_creates_page_and_layout "école" "/w" [("/w", Node.dir)]
  (by decide) (by decide) (by decide) (by decide)
refine ⟨?_, ?_, ?_⟩
· rw [T.1]
  rfl
· rw [T.2.1]
  rfl
· rw [T2.2.1]
  rfl

/-- C5: for a normalized name whose target directory is absent and whose
ancestors are present, `add("expo", name)` creates the target directory
with exactly `index.tsx` and `styles.js`; the component identifier is the
name verbatim followed by `Screen`, the rendered text is the name verbatim
followed by a space and `Screen`, and `styles.js` exports a `container`
rule. -/
theorem expo_add_creates_index_and_styles (componentName cwd : String) (fs : FS)
    (_hnorm : normalizedName componentName)
    (hclean : cleanFor fs (pathJoin cwd componentName))
    (hanc : parentsExist fs (pathJoin cwd componentName)) :
    createExpoComponents componentName cwd fs = Except.ok
      ((pathJoin (pathJoin cwd componentName) "styles.js", Node.file expoStylesContent) ::
       (pathJoin (pathJoin cwd componentName) "index.tsx", Node.file (expoIndexContent componentName)) ::
       (pathJoin cwd componentName, Node.dir) :: fs) ∧
    expoIndexContent componentName =
      "import React from \x27react\x27;\nimport \x7b View, Text, StyleSheet \x7d from \x27react-native\x27;\n\nexport default function " ++
        (componentName ++ "Screen") ++
        ("() \x7b\n  return (\n    <View style=\x7bstyles.container\x7d>\n      <Text style=\x7bstyles.title\x7d>" ++
          (componentName ++ " Screen") ++
          ("</Text>\n    </View>\n  );\n\x7d\n\nconst styles = StyleSheet.create(\x7b\n  container: \x7b\n    flex: 1,\n    alignItems: \x27center\x27,\n    justifyContent: \x27center\x27,\n  \x7d,\n  title: \x7b\n    fontSize: 20,\n    fontWeight: \x27bold\x27,\n    marginBottom: 16,\n  \x7d,\n\x7d);\n")) ∧
    (∃ a b, expoStylesContent = a ++ "container: \x7b" ++ b) := by
refine ⟨createExpoComponents_ok componentName cwd fs hclean hanc, ?_, ?_⟩
· unfold expoIndexContent
  apply String.ext
  simp only [String.data_append]
  simp [List.append_assoc]
· exact ⟨"import \x7b StyleSheet \x7d from \x27react-native\x27;\n\nexport default StyleSheet.create(\x7b\n  ",
    "\n    flex: 1,\n    padding: 16,\n    backgroundColor: \x27#f0f0f0\x27,\n  \x7d,\n\x7d);\n", rfl⟩

/-- Witness for C5: `add("expo", "login")` yields component `loginScreen`
and text `login Screen`. -/
theorem expo_add_creates_index_and_styles_witness :
    createExpoComponents "login" "/w" [("/w", Node.dir)] = Except.ok
      [("/w/login/styles.js", Node.file expoStylesContent),
       ("/w/login/index.tsx", Node.file (expoIndexContent "login")),
       ("/w/login", Node.dir), ("/w", Node.dir)] ∧
    expoIndexContent "login" =
      "import React from \x27react\x27;\nimport \x7b View, Text, StyleSheet \x7d from \x27react-native\x27;\n\nexport default function loginScreen() \x7b\n  return (\n    <View style=\x7bstyles.container\x7d>\n      <Text style=\x7bstyles.title\x7d>login Screen</Text>\n    </View>\n  );\n\x7d\n\nconst styles = StyleSheet.create(\x7b\n  container: \x7b\n    flex: 1,\n    alignItems: \x27center\x27,\n    justifyContent: \x27center\x27,\n  \x7d,\n  title: \x7b\n    fontSize: 20,\n    fontWeight: \x27bold\x27,\n    marginBottom: 16,\n  \x7d,\n\x7d);\n" := by
have T := expo_add_creates_index_and_styles "login" "/w" [("/w", Node.dir)]
  (by decide) (by decide) (by decide)
refine ⟨?_, ?_⟩
· rw [T.1]
  rfl
· rw [T.2.1]
  rfl

lemma jsTrimChars_eq_nil_iff (l : List Char) :
    jsTrimChars l = [] ↔ ∀ c ∈ l, jsWS c = true := by
unfold jsTrimChars
constructor
· intro h c hc
  have h1 : (l.dropWhile jsWS).reverse.dropWhile jsWS = [] := List.reverse_eq_nil_iff.mp h
  have h2 := List.dropWhile_eq_nil_iff.mp h1
  have h3 : ∀ x ∈ l.dropWhile jsWS, jsWS x = true := fun x hx =>
    h2 x (List.mem_reverse.mpr hx)
  rw [← List.takeWhile_append_dropWhile jsWS l] at hc
  rcases List.mem_append.mp hc with h4 | h4
  · exact List.mem_takeWhile_imp h4
  · exact h3 c h4
· intro h
  have hd : l.dropWhile jsWS = [] := List.dropWhile_eq_nil_iff.mpr fun x hx => h x hx
  simp [hd]

lemma validateComponentName_ok_iff (input : String) :
    validateComponentName input = Except.ok () ↔ ¬(jsTrimChars input.data = []) := by
unfold validateComponentName
by_cases hn : jsTrimChars input.data = []
· rw [hn]
  simp
· have hne : (jsTrimChars input.data).isEmpty = false := by
    simpa using hn
  simp [hne, hn]

/-- C8: the interactive name prompt accepts an input exactly when some
character survives trimming (equivalently, rejects exactly the all
whitespace inputs with the `Name cannot be empty` message), and an accepted
name goes unchanged into the same `addComponent` / `removeComponent`
routines the dispatcher calls. -/
theorem interactive_name_validation (input : String) :
    (validateComponentName input = Except.ok () ↔ ∃ c ∈ input.data, jsWS c = false) ∧
    (validateComponentName input = Except.error "Name cannot be empty" ↔
      ∀ c ∈ input.data, jsWS c = true) ∧
    (∀ platform cwd fs,
      interactiveCLIRun platform "add" input cwd fs = addComponent platform input cwd fs ∧
      interactiveCLIRun platform "remove" input cwd fs = removeComponent platform input cwd fs) := by
refine ⟨?_, ?_, fun platform cwd fs => ⟨rfl, rfl⟩⟩
· rw [validateComponentName_ok_iff, jsTrimChars_eq_nil_iff]
  push_neg
  constructor
  · rintro ⟨c, hc, hne⟩
    exact ⟨c, hc, by simpa using hne⟩
  · rintro ⟨c, hc, hfalse⟩
    exact ⟨c, hc, by simp [hfalse]⟩
· constructor
  · intro h
    by_contra hno
    have hne : ¬(jsTrimChars input.data = []) := fun hnil =>
      hno ((jsTrimChars_eq_nil_iff input.data).mp hnil)
    have hok := (validateComponentName_ok_iff input).mpr hne
    rw [h] at hok
    exact Except.noConfusion hok
  · intro h
    have hnil : jsTrimChars input.data = [] := (jsTrimChars_eq_nil_iff input.data).mpr h
    unfold validateComponentName
    rw [hnil]
    rfl

/-- Witness for C8: an input with visible characters is accepted; an ASCII
whitespace-only input and a no-break-space-only input (U+00A0, which
ECMAScript `trim` also removes) are rejected with the re-prompt message. -/
theorem interactive_name_validation_witness :
    validateComponentName "  hi  " = Except.ok () ∧
    validateComponentName " \t " = Except.error "Name cannot be empty" ∧
    validateComponentName "\u00A0" = Except.error "Name cannot be empty" :=
⟨(interactive_name_validation "  hi  ").1.mpr ⟨'h', by decide, by decide⟩,
 (interactive_name_validation " \t ").2.1.mpr (by decide),
 (interactive_name_validation "\u00A0").2.1.mpr (by decide)⟩

/-- C10: the dispatcher never validates the name token — it forwards it
verbatim to the handlers — and with the empty name the target path is the
working directory itself, so `add` fails with the already-exists error and
`remove` recursively deletes the working directory. -/
theorem dispatcher_passes_name_verbatim (platform componentName cwd : String) (fs : FS)
    (hp : platform = "next" ∨ platform = "expo" ∨ platform = "react-native") :
    runCLI [platform, "add", componentName] cwd fs =
      CLIResult.done (addComponent platform componentName cwd fs).1
        (addComponent platform componentName cwd fs).2.1
        (addComponent platform componentName cwd fs).2.2 ∧
    runCLI [platform, "remove", componentName] cwd fs =
      CLIResult.done (removeComponent platform componentName cwd fs).1
        (removeComponent platform componentName cwd fs).2.1
        (removeComponent platform componentName cwd fs).2.2 ∧
    pathJoin cwd "" = cwd ∧
    (existsSync fs cwd = true →
      addComponent platform "" cwd fs =
        (1, ["✗ Error creating component: " ++
              ((if platform = "next" then "Component/page \x22" else "Component \x22") ++
                "" ++ "\x22 already exists")], fs) ∧
      removeComponent platform "" cwd fs =
        (0, ["✓ Successfully removed " ++ "" ++ " from " ++ platform ++ "!"], rmSync fs cwd)) := by
rcases hp with h | h | h <;> subst h <;>
  refine ⟨rfl, rfl, rfl, fun hcwd => ⟨?_, ?_⟩⟩
· simp [addComponent, createNextComponents, pathJoin, hcwd]
· simp [removeComponent, removeNextComponents, pathJoin, hcwd]
· simp [addComponent, createExpoComponents, pathJoin, hcwd]
· simp [removeComponent, removeExpoComponents, pathJoin, hcwd]
· simp [addComponent, createReactNativeComponents, pathJoin, hcwd]
· simp [removeComponent, removeReactNativeComponents, pathJoin, hcwd]

/-- Witness for C10: with an empty name and an existing working directory
`/w`, `add` reports that the component already exists and `remove` deletes
everything under `/w`. -/
theorem dispatcher_passes_name_verbatim_witness :
    pathJoin "/w" "" = "/w" ∧
    addComponent "expo" "" "/w" [("/w", Node.dir), ("/w/src", Node.dir)] =
      (1, ["✗ Error creating component: Component \x22\x22 already exists"],
        [("/w", Node.dir), ("/w/src", Node.dir)]) ∧
    removeComponent "expo" "" "/w" [("/w", Node.dir), ("/w/src", Node.dir)] =
      (0, ["✓ Successfully removed  from expo!"], []) := by
have T := dispatcher_passes_name_verbatim "expo" "" "/w"
  [("/w", Node.dir), ("/w/src", Node.dir)] (Or.inr (Or.inl rfl))
refine ⟨T.2.2.1, ?_, ?_⟩
· rw [(T.2.2.2 rfl).1]
  rfl
· rw [(T.2.2.2 rfl).2]
  rfl

end Druta
